import Mathlib

/-!
Shallow embedding of the krbtray service-ticket subsystem.

Sources embedded:
- the TTL token cache (`AppCache` wrapping the go-cache store, src/unnamed/part_015);
- the GSS-style macOS backend (`gss_get_service_ticket`, src/unnamed/part_009);
- the gokrb5 Linux backend (src/gsscred_linux.go);
- the SSPI Windows backend (src/gsscred_windows.go);
- the unsupported-platform stub (src/unnamed/part_018);
- the session-state / refresh flow (src/main.go) and the scripted token
  lookup (src/unnamed/part_000).

Times and durations are modelled as mathematical integers standing for Go
int64 nanosecond values (`time.Time.UnixNano` / `time.Duration`); native GSS,
SSPI and gokrb5 library calls are modelled as environment records whose fields
give each call's outcome, and each operation additionally returns the list of
native calls it performed, in order.
-/

/-! ## TTL cache: embedding of the go-cache store used by AppCache.

The underlying store is the github.com/patrickmn/go-cache dependency (not part
of this repository's sources); its `Set`/`Get`/`DeleteExpired` semantics are
modelled from the spec's Token Cache description (absolute expiry `now + ttl`
computed at `Set`, read-time strict-inequality expiry check at `Get`, a sweep
that removes already-expired entries), which matches that library's documented
behaviour. An expiration of 0 marks an entry that never expires; a requested
duration equal to `DefaultExpiration` (0) is replaced by the store's default. -/

def NoExpiration : Int := -1

def DefaultExpiration : Int := 0

structure GoCache (V : Type) where
  defaultExpiration : Int
  items : String → Option (V × Int)

def goCacheExpiry (defExp now d : Int) : Int :=
  let d' := if d = DefaultExpiration then defExp else d
  if 0 < d' then now + d' else 0

def goCacheSet {V : Type} (c : GoCache V) (now : Int) (k : String) (v : V) (d : Int) :
    GoCache V :=
  { c with items := fun q =>
      if q = k then some (v, goCacheExpiry c.defaultExpiration now d) else c.items q }

def goCacheGet {V : Type} (c : GoCache V) (now : Int) (k : String) : Option V :=
  match c.items k with
  | none => none
  | some (v, e) => if 0 < e ∧ e < now then none else some v

def goCacheDeleteExpired {V : Type} (c : GoCache V) (now : Int) : GoCache V :=
  { c with items := fun q =>
      match c.items q with
      | some (v, e) => if 0 < e ∧ e < now then none else some (v, e)
      | none => none }

/-! ## AppCache (src/unnamed/part_015) -/

def PrefixJWT : String := "jwt:"

def PrefixSecret : String := "secret:"

def PrefixToken : String := "token:"

def DefaultTokenExpiration : Int := 10 * 60 * 1000000000

def CleanupInterval : Int := 1 * 60 * 1000000000

/-- A cached Kerberos or JWT token (struct CachedToken). -/
structure CachedToken where
  Value : String
  ExpiresAt : Int
  SPN : String
deriving DecidableEq

/-- A cached secret (struct CachedSecret). -/
structure CachedSecret where
  Value : String
  ExpiresAt : Int
  Metadata : List (String × String)
deriving DecidableEq

/-- The dynamic type of a value stored in the go-cache store: the Go code
stores plain strings, `*CachedToken` and `*CachedSecret` under `interface{}`,
and recovers them with type assertions. -/
inductive CVal
  | str (s : String)
  | tok (t : CachedToken)
  | secret (s : CachedSecret)
deriving DecidableEq

/-- AppCache wraps the go-cache store (struct AppCache). -/
structure AppCache where
  c : GoCache CVal

/-- `InitCache` creates the store with `DefaultTokenExpiration` as default
expiration (sweep cadence `CleanupInterval` is the sweep parameter only). -/
def InitCache : AppCache :=
  ⟨{ defaultExpiration := DefaultTokenExpiration, items := fun _ => none }⟩

/-- AppCache.Set: stores a custom plain-string value (part_015 line 268). -/
def AppCache.Set (ac : AppCache) (now : Int) (key value : String) (expiration : Int) :
    AppCache :=
  ⟨goCacheSet ac.c now key (CVal.str value) expiration⟩

/-- AppCache.Get: retrieves a custom value; the type assertion to `string`
must succeed, otherwise not-found is reported (part_015 line 274). -/
def AppCache.Get (ac : AppCache) (now : Int) (key : String) : Option String :=
  match goCacheGet ac.c now key with
  | some (CVal.str s) => some s
  | _ => none

/-- AppCache.SetToken: stores a `*CachedToken` under `PrefixToken ++ spn`
with `ExpiresAt = now + expiration` (part_015 line 120). -/
def AppCache.SetToken (ac : AppCache) (now : Int) (spn token : String) (expiration : Int) :
    AppCache :=
  ⟨goCacheSet ac.c now (PrefixToken ++ spn)
    (CVal.tok { Value := token, ExpiresAt := now + expiration, SPN := spn }) expiration⟩

/-- AppCache.GetToken: looks up `PrefixToken ++ spn`; the type assertion to
`*CachedToken` must succeed, otherwise not-found is reported (part_015 line 130). -/
def AppCache.GetToken (ac : AppCache) (now : Int) (spn : String) : Option String :=
  match goCacheGet ac.c now (PrefixToken ++ spn) with
  | some (CVal.tok t) => some t.Value
  | _ => none

/-- AppCache.Delete removes an item from the cache. -/
def AppCache.Delete (ac : AppCache) (key : String) : AppCache :=
  ⟨{ ac.c with items := fun q => if q = key then none else ac.c.items q }⟩

/-! ## Service principal strings

Identity strings are modelled as lists of characters (Go strings are byte
slices; the separators involved are single-byte ASCII). `splitFirst` splits at
the first occurrence of a separator, matching C `strchr` and Go
`strings.SplitN(s, sep, 2)` after a `strings.Contains` guard. -/

def splitFirst (sep : Char) : List Char → Option (List Char × List Char)
  | [] => none
  | c :: rest =>
    if c = sep then some ([], rest)
    else
      match splitFirst sep rest with
      | some (a, b) => some (c :: a, b)
      | none => none

theorem splitFirst_eq_none (sep : Char) (l : List Char) (h : sep ∉ l) :
    splitFirst sep l = none := by
  induction l with
  | nil => rfl
  | cons c rest ih =>
    have hc : ¬ c = sep := fun e => h (e ▸ List.mem_cons_self c rest)
    have hr : sep ∉ rest := fun m => h (List.mem_cons_of_mem c m)
    simp [splitFirst, hc, ih hr]

theorem splitFirst_append (sep : Char) (p s : List Char) (h : sep ∉ p) :
    splitFirst sep (p ++ sep :: s) = some (p, s) := by
  induction p with
  | nil => simp [splitFirst]
  | cons c rest ih =>
    have hc : ¬ c = sep := fun e => h (e ▸ List.mem_cons_self c rest)
    have hr : sep ∉ rest := fun m => h (List.mem_cons_of_mem c m)
    simp [splitFirst, hc, ih hr]

/-- The slash-to-at conversion in gss_get_service_ticket (part_009): if the
SPN contains '/', build `service ++ "@" ++ host` where the split is at the
first '/' (C `strchr`); otherwise use the SPN as-is. The conversion writes a
fresh buffer; the original string is never modified. -/
def convertSlashToAt (spn : List Char) : List Char :=
  match splitFirst '/' spn with
  | some (svc, host) => svc ++ '@' :: host
  | none => spn

/-- SPN parsing in the Linux backend's GetServiceTicket (gsscred_linux.go
lines 179-190): split at the first '/', else at the first '@', else reject. -/
def parseSPN (spn : List Char) : Option (List Char × List Char) :=
  match splitFirst '/' spn with
  | some p => some p
  | none => splitFirst '@' spn

/-! ## GSS-style macOS backend (src/unnamed/part_009)

`gss_get_service_ticket` is the C function behind the darwin
`GSSCredTransport.GetServiceTicket`. Native GSS outcomes are supplied by a
`GssEnv`; the function also returns the ordered list of native GSS calls it
made. The C code's guarded `gss_delete_sec_context` (a no-op on
`GSS_C_NO_CONTEXT`) is modelled as one `deleteSecContext` step. The Go wrapper
maps a NULL result (any non-zero error code, or a zero-length token) to a Go
error, so the result type is `Except`. -/

inductive GssMajor
  | complete
  | continueNeeded
  | failure (code : Nat)
deriving DecidableEq

/-- A major status lets the exchange proceed when it is GSS_S_COMPLETE or
GSS_S_CONTINUE_NEEDED. -/
def GssMajor.proceed : GssMajor → Bool
  | .complete => true
  | .continueNeeded => true
  | .failure _ => false

inductive GssMech
  | spnego
  | krb5
deriving DecidableEq

inductive GssEvent
  | acquireCred
  | importName (name : List Char)
  | initSecContext (mech : GssMech) (name : List Char)
  | deleteSecContext
  | releaseName
  | releaseCred
deriving DecidableEq

/-- Outcomes of the native GSS calls for one gss_get_service_ticket run. -/
structure GssEnv where
  acquireCred : GssMajor
  importName : List Char → Bool
  initSecContext : GssMech → List Char → GssMajor × List Nat

/-- The two-step context-initialization sequence of gss_get_service_ticket:
try GSS_SPNEGO_MECHANISM; if the major status is neither complete nor
continue-needed, delete the partial context and retry once with
GSS_KRB5_MECHANISM. Returns the result of the last attempt and the events. -/
def gssInitAttempts (env : GssEnv) (name : List Char) :
    (GssMajor × List Nat) × List GssEvent :=
  let r1 := env.initSecContext GssMech.spnego name
  if r1.1.proceed then (r1, [GssEvent.initSecContext GssMech.spnego name])
  else
    (env.initSecContext GssMech.krb5 name,
     [GssEvent.initSecContext GssMech.spnego name, GssEvent.deleteSecContext,
      GssEvent.initSecContext GssMech.krb5 name])

inductive GssErr
  | acquisition
  | nameImport
  | negotiation
  | emptyToken
deriving DecidableEq

/-- gss_get_service_ticket (part_009 lines 346-576): acquire the initiator
credential restricted to Kerberos (failure: error -1), convert a slash-form
SPN to at-form, import the target name (failure: release the credential,
error -2), run the SPNEGO-then-Kerberos attempt sequence, release the name
and the credential, and fail (-3) if the last attempt cannot proceed;
a zero-length output token yields a NULL result that the Go wrapper turns
into an error. Cleanup of the context is unconditional. -/
def gss_get_service_ticket (env : GssEnv) (spn : List Char) :
    Except GssErr (List Nat) × List GssEvent :=
  if env.acquireCred = GssMajor.complete then
    let name := convertSlashToAt spn
    if env.importName name then
      let ra := gssInitAttempts env name
      ((if ra.1.1.proceed then
          if ra.1.2.isEmpty then Except.error GssErr.emptyToken else Except.ok ra.1.2
        else Except.error GssErr.negotiation),
       GssEvent.acquireCred :: GssEvent.importName name :: ra.2 ++
         [GssEvent.releaseName, GssEvent.releaseCred, GssEvent.deleteSecContext])
    else
      (Except.error GssErr.nameImport,
       [GssEvent.acquireCred, GssEvent.importName name, GssEvent.releaseCred])
  else (Except.error GssErr.acquisition, [GssEvent.acquireCred])

/-- The mechanisms attempted by a run, in order, read off its event list. -/
def initAttempts (tr : List GssEvent) : List GssMech :=
  tr.filterMap fun e =>
    match e with
    | GssEvent.initSecContext m _ => some m
    | _ => none

/-! ## gokrb5 Linux backend (src/gsscred_linux.go)

The transport holds a debug flag, an optional gokrb5 client (nil until a
successful Connect) and a configured ccache path. Outcomes of the gokrb5
library calls are supplied by environments; each operation also reports the
library calls it performed. -/

inductive ConnectErr
  | ccacheLoadFailed
  | configLoadFailed
  | clientCreateFailed
  | acquireFailed
deriving DecidableEq

inductive GokrbErr
  | notConnected
  | invalidSPNFormat
  | acquireCredFailed
  | initSecContextFailed
  | marshalFailed
deriving DecidableEq

inductive GokrbEvent
  | spnegoAcquireCred
  | spnegoInitSecContext
  | tokenMarshal
deriving DecidableEq

/-- Outcomes of the gokrb5 SPNEGO calls inside GetServiceTicket. -/
structure GokrbEnv where
  acquireCredOk : Bool
  initSecContextOk : Bool
  marshalBytes : Option (List Nat)

/-- Outcomes of ccache/config loading inside Connect. -/
structure GokrbConnectEnv where
  loadCCache : Bool
  loadConfig : Bool
  newClientFromCCache : Bool

structure GSSCredTransportLinux where
  debug : Bool
  client : Option Unit
  ccachePath : String
deriving DecidableEq

/-- Linux Connect (gsscred_linux.go lines 68-126): load the ccache, load
krb5.conf, create a client; on any failure the error is returned and
`t.client` is left untouched. Path resolution (explicit path, KRB5CCNAME,
per-uid default) affects only which file is loaded and is folded into the
`loadCCache` outcome. -/
def GSSCredTransportLinux.Connect (t : GSSCredTransportLinux) (env : GokrbConnectEnv) :
    GSSCredTransportLinux × Option ConnectErr :=
  if env.loadCCache then
    if env.loadConfig then
      if env.newClientFromCCache then ({ t with client := some () }, none)
      else (t, some ConnectErr.clientCreateFailed)
    else (t, some ConnectErr.configLoadFailed)
  else (t, some ConnectErr.ccacheLoadFailed)

/-- Linux Close (gsscred_linux.go lines 129-135): destroy the client if one
is held, clear the field, always return nil. The Bool reports whether
`client.Destroy()` was called. -/
def GSSCredTransportLinux.Close (t : GSSCredTransportLinux) :
    GSSCredTransportLinux × Option String × Bool :=
  match t.client with
  | some _ => ({ t with client := none }, none, true)
  | none => (t, none, false)

/-- Linux GetServiceTicket (gsscred_linux.go lines 168-221): reject when not
connected, parse the SPN (reject when it has neither separator), then run
AcquireCred, InitSecContext and Marshal through the gokrb5 SPNEGO client. -/
def GSSCredTransportLinux.GetServiceTicket (t : GSSCredTransportLinux) (env : GokrbEnv)
    (spn : List Char) : Except GokrbErr (List Nat) × List GokrbEvent :=
  match t.client with
  | none => (Except.error GokrbErr.notConnected, [])
  | some _ =>
    match parseSPN spn with
    | none => (Except.error GokrbErr.invalidSPNFormat, [])
    | some _ =>
      if env.acquireCredOk then
        if env.initSecContextOk then
          match env.marshalBytes with
          | some bs =>
            (Except.ok bs,
             [GokrbEvent.spnegoAcquireCred, GokrbEvent.spnegoInitSecContext,
              GokrbEvent.tokenMarshal])
          | none =>
            (Except.error GokrbErr.marshalFailed,
             [GokrbEvent.spnegoAcquireCred, GokrbEvent.spnegoInitSecContext,
              GokrbEvent.tokenMarshal])
        else
          (Except.error GokrbErr.initSecContextFailed,
           [GokrbEvent.spnegoAcquireCred, GokrbEvent.spnegoInitSecContext])
      else (Except.error GokrbErr.acquireCredFailed, [GokrbEvent.spnegoAcquireCred])

/-! ## SSPI Windows backend (src/gsscred_windows.go) -/

inductive SspiErr
  | notConnected
  | newClientContextFailed
  | emptyToken
deriving DecidableEq

inductive SspiEvent
  | newClientContext (spn : List Char)
  | contextRelease
deriving DecidableEq

/-- Outcome of `negotiate.NewClientContext` per SPN: `none` is failure,
otherwise the first-leg output token. -/
structure SspiEnv where
  newClientContext : List Char → Option (List Nat)

structure GSSCredTransportWindows where
  debug : Bool
  cred : Option Unit
deriving DecidableEq

/-- Windows Connect (gsscred_windows.go lines 63-73): acquire the current
user's credentials; on failure the error is returned with `t.cred` untouched. -/
def GSSCredTransportWindows.Connect (t : GSSCredTransportWindows) (acquireOk : Bool) :
    GSSCredTransportWindows × Option ConnectErr :=
  if acquireOk then ({ t with cred := some () }, none)
  else (t, some ConnectErr.acquireFailed)

/-- Windows Close (gsscred_windows.go lines 76-82): release the credentials
if held, clear the field, always return nil. -/
def GSSCredTransportWindows.Close (t : GSSCredTransportWindows) :
    GSSCredTransportWindows × Option String × Bool :=
  match t.cred with
  | some _ => ({ t with cred := none }, none, true)
  | none => (t, none, false)

/-- Windows GetServiceTicket (gsscred_windows.go lines 110-138): reject when
not connected; otherwise pass the SPN directly to NewClientContext (no format
validation), release the context, and reject an empty token. -/
def GSSCredTransportWindows.GetServiceTicket (t : GSSCredTransportWindows) (env : SspiEnv)
    (spn : List Char) : Except SspiErr (List Nat) × List SspiEvent :=
  match t.cred with
  | none => (Except.error SspiErr.notConnected, [])
  | some _ =>
    match env.newClientContext spn with
    | none => (Except.error SspiErr.newClientContextFailed, [SspiEvent.newClientContext spn])
    | some tok =>
      if tok.isEmpty then
        (Except.error SspiErr.emptyToken,
         [SspiEvent.newClientContext spn, SspiEvent.contextRelease])
      else (Except.ok tok, [SspiEvent.newClientContext spn, SspiEvent.contextRelease])

/-! ## Unsupported-platform stub (src/unnamed/part_018) -/

structure GSSCredTransportStub where
  debug : Bool
deriving DecidableEq

/-- Stub Connect always fails. -/
def GSSCredTransportStub.Connect (t : GSSCredTransportStub) :
    GSSCredTransportStub × Option String :=
  (t, some "GSSCred is only available on macOS")

/-- Stub Close is a no-op returning nil. -/
def GSSCredTransportStub.Close (t : GSSCredTransportStub) :
    GSSCredTransportStub × Option String :=
  (t, none)

/-! ## Base64 (Go encoding/base64 StdEncoding, used by refreshToken and
luaGetToken to encode raw ticket bytes) -/

def b64Alphabet : List Char :=
  "ABCDEFGHIJKLMNOPQRSTUVWXYZabcdefghijklmnopqrstuvwxyz0123456789+/".toList

def b64Char (n : Nat) : Char := b64Alphabet.getD n '='

/-- RFC 4648 standard base64 with padding over byte values. -/
def base64Encode : List Nat → List Char
  | [] => []
  | [a] => [b64Char (a / 4), b64Char (a % 4 * 16), '=', '=']
  | [a, b] => [b64Char (a / 4), b64Char (a % 4 * 16 + b / 16), b64Char (b % 16 * 4), '=']
  | a :: b :: c :: rest =>
    b64Char (a / 4) :: b64Char (a % 4 * 16 + b / 16) ::
      b64Char (b % 16 * 4 + c / 64) :: b64Char (c % 64) :: base64Encode rest

/-! ## Session state and ticket-request flow (src/main.go, src/unnamed/part_000)

The shared record guarded by `stateMutex`: the selected SPN, the last
base64-encoded token, and its timestamp; all three are zero-valued at startup.
Each operation returns, besides the updated state and cache, the ordered list
of steps it performed; each lock-protected section is one step, and ticket
acquisition (`acquireTicket` inside the transport steps) is a separate step
performed outside any lock. -/

structure SessionState where
  currentSPN : String
  lastToken : String
  lastTokenTime : Int
deriving DecidableEq

/-- The zero value of the session globals at startup (main.go lines 21-24). -/
def initialSessionState : SessionState := { currentSPN := "", lastToken := "", lastTokenTime := 0 }

inductive TicketErr
  | unsupportedPlatform
  | connectFailed
  | ticketFailed
deriving DecidableEq

inductive AppStep
  | readLockSPN
  | newTransport
  | transportConnect
  | transportGetTicket (spn : String)
  | transportClose
  | writeLockCommit
  | writeLockSetSPN
  | cacheGetToken (spn : String)
  | cacheSetToken (spn : String)
deriving DecidableEq

/-- Platform support and per-call transport outcomes for getServiceTicket. -/
structure MainEnv where
  platformSupported : Bool
  connectOk : Bool
  ticket : String → Option (List Nat)

/-- getServiceTicket (main.go lines 738-761): check platform support,
construct a fresh transport, Connect (returning its error without Close if it
fails — the Close is deferred only after the Connect check), then request the
ticket and Close. -/
def getServiceTicket (env : MainEnv) (spn : String) :
    Except TicketErr (List Nat) × List AppStep :=
  if env.platformSupported then
    if env.connectOk then
      match env.ticket spn with
      | some tok =>
        (Except.ok tok,
         [AppStep.newTransport, AppStep.transportConnect,
          AppStep.transportGetTicket spn, AppStep.transportClose])
      | none =>
        (Except.error TicketErr.ticketFailed,
         [AppStep.newTransport, AppStep.transportConnect,
          AppStep.transportGetTicket spn, AppStep.transportClose])
    else
      (Except.error TicketErr.connectFailed,
       [AppStep.newTransport, AppStep.transportConnect])
  else (Except.error TicketErr.unsupportedPlatform, [])

/-- refreshToken (main.go lines 698-736): read the selected SPN under the
read lock; bail out if none; acquire the ticket outside any lock; on failure
only the UI status changes — state and cache are untouched; on success take
the write lock to store the encoded token and timestamp, then store the token
in the cache. -/
def refreshToken (env : MainEnv) (now : Int) (s : SessionState) (cache : AppCache) :
    SessionState × AppCache × List AppStep :=
  if s.currentSPN = "" then (s, cache, [AppStep.readLockSPN])
  else
    match (getServiceTicket env s.currentSPN).1 with
    | Except.error _ =>
      (s, cache, AppStep.readLockSPN :: (getServiceTicket env s.currentSPN).2)
    | Except.ok tok =>
      ({ s with lastToken := String.mk (base64Encode tok), lastTokenTime := now },
       AppCache.SetToken cache now s.currentSPN (String.mk (base64Encode tok))
         DefaultTokenExpiration,
       AppStep.readLockSPN :: (getServiceTicket env s.currentSPN).2 ++
         [AppStep.writeLockCommit, AppStep.cacheSetToken s.currentSPN])

/-- setSPN (main.go lines 680-696): commit the selected SPN under the write
lock, then auto-refresh. -/
def setSPN (env : MainEnv) (now : Int) (spn : String) (s : SessionState)
    (cache : AppCache) : SessionState × AppCache × List AppStep :=
  let r := refreshToken env now { s with currentSPN := spn } cache
  (r.1, r.2.1, AppStep.writeLockSetSPN :: r.2.2)

/-- luaGetToken (part_000 lines 290-360, from the point where the SPN value
is resolved): consult the token cache first and return a hit immediately;
on a miss, request a ticket, and on success encode it, store it in the cache
and return it. -/
def luaGetToken (env : MainEnv) (now : Int) (cache : AppCache) (spnValue : String) :
    Except String String × AppCache × List AppStep :=
  match AppCache.GetToken cache now spnValue with
  | some cached => (Except.ok cached, cache, [AppStep.cacheGetToken spnValue])
  | none =>
    match (getServiceTicket env spnValue).1 with
    | Except.error _ =>
      (Except.error "failed to get token", cache,
       AppStep.cacheGetToken spnValue :: (getServiceTicket env spnValue).2)
    | Except.ok tok =>
      (Except.ok (String.mk (base64Encode tok)),
       AppCache.SetToken cache now spnValue (String.mk (base64Encode tok))
         DefaultTokenExpiration,
       AppStep.cacheGetToken spnValue :: (getServiceTicket env spnValue).2 ++
         [AppStep.cacheSetToken spnValue])

/-- A step is a write-lock-protected section. -/
def isWriteLockStep : AppStep → Bool
  | AppStep.writeLockCommit => true
  | AppStep.writeLockSetSPN => true
  | _ => false

/-! ## Claim theorems -/

/-- C1: in gss_get_service_ticket, for every imported target name, context
initialization is first attempted under SPNEGO; if and only if that attempt's
major status is neither complete nor continue-needed, the partial context is
deleted and exactly one retry is made under the Kerberos mechanism, and no
third attempt is ever made: the full native-call trace is characterized, and
the attempted mechanisms are `[spnego]` on a proceeding first attempt and
exactly `[spnego, krb5]` (with the context deletion between the two attempts)
otherwise. -/
theorem C1_mechanism_fallback (env : GssEnv) (spn : List Char)
    (hacq : env.acquireCred = GssMajor.complete)
    (himp : env.importName (convertSlashToAt spn) = true) :
    (gss_get_service_ticket env spn).2 =
      GssEvent.acquireCred :: GssEvent.importName (convertSlashToAt spn) ::
        (if (env.initSecContext GssMech.spnego (convertSlashToAt spn)).1.proceed then
          [GssEvent.initSecContext GssMech.spnego (convertSlashToAt spn)]
        else
          [GssEvent.initSecContext GssMech.spnego (convertSlashToAt spn),
           GssEvent.deleteSecContext,
           GssEvent.initSecContext GssMech.krb5 (convertSlashToAt spn)]) ++
        [GssEvent.releaseName, GssEvent.releaseCred, GssEvent.deleteSecContext] ∧
    initAttempts (gss_get_service_ticket env spn).2 =
      (if (env.initSecContext GssMech.spnego (convertSlashToAt spn)).1.proceed then
        [GssMech.spnego]
      else [GssMech.spnego, GssMech.krb5]) := by
  by_cases hp : (env.initSecContext GssMech.spnego (convertSlashToAt spn)).1.proceed
  · simp [gss_get_service_ticket, hacq, himp, gssInitAttempts, hp, initAttempts]
  · simp [gss_get_service_ticket, hacq, himp, gssInitAttempts, hp, initAttempts]

def gssEnvFallbackW : GssEnv :=
  { acquireCred := GssMajor.complete
    importName := fun _ => true
    initSecContext := fun _ _ => (GssMajor.failure 1, []) }

/-- Witness for C1 at a concrete environment whose SPNEGO attempt fails:
exactly the two attempts, SPNEGO then Kerberos, are made. -/
theorem C1_mechanism_fallback_witness :
    initAttempts (gss_get_service_ticket gssEnvFallbackW ("HTTP/h".toList)).2 =
      [GssMech.spnego, GssMech.krb5] := by
  have h := (C1_mechanism_fallback gssEnvFallbackW ("HTTP/h".toList) rfl rfl).2
  exact h.trans (by decide)

/-- C2: for every identity string, when no usable local credential exists —
the transport's credential field is still nil because Connect was never called
or never succeeded (on the GSS backend, the native credential acquisition
fails) — GetServiceTicket returns an error (hence no non-empty token: the
error result carries no token at all); and a failed Connect never installs a
credential handle. -/
theorem C2_no_credential_error :
    (∀ (d : Bool) (p : String) (env : GokrbEnv) (spn : List Char),
      GSSCredTransportLinux.GetServiceTicket { debug := d, client := none, ccachePath := p }
        env spn = (Except.error GokrbErr.notConnected, [])) ∧
    (∀ (d : Bool) (env : SspiEnv) (spn : List Char),
      GSSCredTransportWindows.GetServiceTicket { debug := d, cred := none } env spn =
        (Except.error SspiErr.notConnected, [])) ∧
    (∀ (env : GssEnv) (code : Nat) (spn : List Char),
      gss_get_service_ticket { env with acquireCred := GssMajor.failure code } spn =
        (Except.error GssErr.acquisition, [GssEvent.acquireCred])) ∧
    (∀ (cenv : GokrbConnectEnv) (t : GSSCredTransportLinux),
      (t.Connect cenv).2 = none ∨ (t.Connect cenv).1.client = t.client) ∧
    (∀ (ok : Bool) (t : GSSCredTransportWindows),
      (t.Connect ok).2 = none ∨ (t.Connect ok).1.cred = t.cred) := by
  refine ⟨fun d p env spn => rfl, fun d env spn => rfl, fun env code spn => ?_, ?_, ?_⟩
  · simp [gss_get_service_ticket]
  · intro cenv t
    by_cases h1 : cenv.loadCCache <;> by_cases h2 : cenv.loadConfig <;>
      by_cases h3 : cenv.newClientFromCCache <;>
      simp [GSSCredTransportLinux.Connect, h1, h2, h3]
  · intro ok t
    by_cases h : ok <;> simp [GSSCredTransportWindows.Connect, h]

/-- C5: Close always succeeds, for every transport state — including after a
failed Connect or when Connect was never called — and a second consecutive
Close is a no-op: it performs no release, returns success, and leaves the
transport exactly in the state the first Close produced; this holds on the
Linux, Windows and stub transports, and Close composed after any Connect
outcome also succeeds. -/
theorem C5_close_idempotent :
    (∀ t : GSSCredTransportLinux,
      t.Close.2.1 = none ∧ t.Close.1.Close = (t.Close.1, none, false)) ∧
    (∀ t : GSSCredTransportWindows,
      t.Close.2.1 = none ∧ t.Close.1.Close = (t.Close.1, none, false)) ∧
    (∀ t : GSSCredTransportStub, t.Close = (t, none)) ∧
    (∀ (cenv : GokrbConnectEnv) (t : GSSCredTransportLinux),
      ((t.Connect cenv).1.Close).2.1 = none) ∧
    (∀ (ok : Bool) (t : GSSCredTransportWindows), ((t.Connect ok).1.Close).2.1 = none) := by
  refine ⟨?_, ?_, fun t => rfl, ?_, ?_⟩
  · rintro ⟨d, cl, p⟩
    cases cl <;> simp [GSSCredTransportLinux.Close]
  · rintro ⟨d, cr⟩
    cases cr <;> simp [GSSCredTransportWindows.Close]
  · intro cenv t
    rcases h : (t.Connect cenv).1 with ⟨d, cl, p⟩
    cases cl <;> simp [GSSCredTransportLinux.Close]
  · intro ok t
    rcases h : (t.Connect ok).1 with ⟨d, cr⟩
    cases cr <;> simp [GSSCredTransportWindows.Close]

theorem goCacheSet_get_self {V : Type} (c : GoCache V) (now now' : Int) (k : String)
    (v : V) (d : Int) (hpos : 0 < d) :
    goCacheGet (goCacheSet c now k v d) now' k =
      if 0 < now + d ∧ now + d < now' then none else some v := by
  have hne : ¬ d = DefaultExpiration := by simp only [DefaultExpiration]; omega
  simp [goCacheGet, goCacheSet, goCacheExpiry, hne, hpos]

theorem goCacheGet_deleteExpired {V : Type} (c : GoCache V) (t now : Int) (k : String)
    (h : t ≤ now) : goCacheGet (goCacheDeleteExpired c t) now k = goCacheGet c now k := by
  simp only [goCacheGet, goCacheDeleteExpired]
  cases hc : c.items k with
  | none => simp [hc]
  | some ve =>
    obtain ⟨v, e⟩ := ve
    by_cases hx : 0 < e ∧ e < t
    · simp only [hc, if_pos hx]
      rw [if_pos ⟨hx.1, by omega⟩]
    · simp only [hc, if_neg hx]

theorem goCacheEq {V : Type} (a b : GoCache V)
    (h1 : a.defaultExpiration = b.defaultExpiration) (h2 : ∀ q, a.items q = b.items q) :
    a = b := by
  cases a with
  | mk d1 i1 =>
    cases b with
    | mk d2 i2 =>
      simp only at h1
      cases h1
      have hi : i1 = i2 := funext h2
      rw [hi]

/-- C3: for the AppCache string accessors, with a positive TTL (and a positive
clock, as Unix-nanosecond clocks are), Get immediately after Set(k, v, ttl)
with no clock advance returns v; Get performed at any time more than ttl past
the Set returns nothing; and the latter holds whether or not the background
sweep ran at any time up to the read — expiry is enforced at read time. -/
theorem C3_cache_read_time_expiry (ac : AppCache) (k v : String) (ttl now now' t : Int)
    (h0 : 0 < now) (h1 : 0 < ttl) (h2 : now + ttl < now') (h3 : t ≤ now') :
    (ac.Set now k v ttl).Get now k = some v ∧
    (ac.Set now k v ttl).Get now' k = none ∧
    AppCache.Get ⟨goCacheDeleteExpired (ac.Set now k v ttl).c t⟩ now' k = none := by
  have hself1 := goCacheSet_get_self ac.c now now k (CVal.str v) ttl h1
  have hself2 := goCacheSet_get_self ac.c now now' k (CVal.str v) ttl h1
  have hsweep := goCacheGet_deleteExpired (goCacheSet ac.c now k (CVal.str v) ttl) t now' k h3
  rw [if_neg (by omega)] at hself1
  rw [if_pos ⟨by omega, h2⟩] at hself2
  refine ⟨?_, ?_, ?_⟩
  · simp [AppCache.Get, AppCache.Set, hself1]
  · simp [AppCache.Get, AppCache.Set, hself2]
  · simp only [AppCache.Get, AppCache.Set] at hsweep hself2 ⊢
    rw [hsweep, hself2]

/-- Witness for C3 at a concrete store, key and times. -/
theorem C3_cache_read_time_expiry_witness :
    (InitCache.Set 1 "k" "v" 5).Get 1 "k" = some "v" ∧
    (InitCache.Set 1 "k" "v" 5).Get 7 "k" = none ∧
    AppCache.Get ⟨goCacheDeleteExpired (InitCache.Set 1 "k" "v" 5).c 3⟩ 7 "k" = none :=
  C3_cache_read_time_expiry InitCache "k" "v" 5 1 7 3 (by decide) (by decide) (by decide)
    (by decide)

/-- C9: AppCache.Set unconditionally replaces a prior entry for the same key:
the store after two Sets of the same key equals the store after just the
second Set (so at most one entry per key remains), the surviving entry is v2
with absolute expiry now2 + t2, and any unexpired Get returns v2. -/
theorem C9_set_overwrites (ac : AppCache) (k v1 v2 : String) (t1 t2 now1 now2 now' : Int)
    (h2 : 0 < t2) (h3 : now' ≤ now2 + t2) :
    ((ac.Set now1 k v1 t1).Set now2 k v2 t2) = ac.Set now2 k v2 t2 ∧
    ((ac.Set now1 k v1 t1).Set now2 k v2 t2).c.items k = some (CVal.str v2, now2 + t2) ∧
    ((ac.Set now1 k v1 t1).Set now2 k v2 t2).Get now' k = some v2 := by
  have hne : ¬ t2 = DefaultExpiration := by simp only [DefaultExpiration]; omega
  have hitems : ∀ q,
      (goCacheSet (goCacheSet ac.c now1 k (CVal.str v1) t1) now2 k (CVal.str v2) t2).items q
        = (goCacheSet ac.c now2 k (CVal.str v2) t2).items q := by
    intro q
    by_cases hq : q = k <;> simp [goCacheSet, hq]
  have heq : goCacheSet (goCacheSet ac.c now1 k (CVal.str v1) t1) now2 k (CVal.str v2) t2
      = goCacheSet ac.c now2 k (CVal.str v2) t2 := goCacheEq _ _ rfl hitems
  have hget := goCacheSet_get_self (goCacheSet ac.c now1 k (CVal.str v1) t1) now2 now' k
    (CVal.str v2) t2 h2
  rw [if_neg (by omega)] at hget
  refine ⟨congrArg AppCache.mk heq, ?_, ?_⟩
  · show (goCacheSet (goCacheSet ac.c now1 k (CVal.str v1) t1) now2 k
      (CVal.str v2) t2).items k = _
    rw [hitems k]
    simp [goCacheSet, goCacheExpiry, hne, h2]
  · simp [AppCache.Get, AppCache.Set, hget]

/-- Witness for C9 at a concrete store, key, values and times. -/
theorem C9_set_overwrites_witness :
    ((InitCache.Set 0 "k" "a" 3).Set 1 "k" "b" 5) = InitCache.Set 1 "k" "b" 5 ∧
    ((InitCache.Set 0 "k" "a" 3).Set 1 "k" "b" 5).c.items "k" = some (CVal.str "b", 6) ∧
    ((InitCache.Set 0 "k" "a" 3).Set 1 "k" "b" 5).Get 4 "k" = some "b" :=
  C9_set_overwrites InitCache "k" "a" "b" 3 5 0 1 4 (by decide) (by decide)

/-- C10: the typed accessors hit only on matching dynamic type: after the
generic Set stores a plain string under "token:" ++ k, GetToken k reports
not-found while the generic Get still sees the unexpired entry; after
SetToken stores a CachedToken record, the generic Get on "token:" ++ k
reports not-found while GetToken k returns the token value. -/
theorem C10_typed_accessors (ac : AppCache) (k v : String) (ttl now : Int)
    (h : 0 < ttl) :
    AppCache.GetToken (AppCache.Set ac now (PrefixToken ++ k) v ttl) now k = none ∧
    AppCache.Get (AppCache.Set ac now (PrefixToken ++ k) v ttl) now (PrefixToken ++ k)
      = some v ∧
    AppCache.Get (AppCache.SetToken ac now k v ttl) now (PrefixToken ++ k) = none ∧
    AppCache.GetToken (AppCache.SetToken ac now k v ttl) now k = some v := by
  have hs := goCacheSet_get_self ac.c now now (PrefixToken ++ k) (CVal.str v) ttl h
  have ht := goCacheSet_get_self ac.c now now (PrefixToken ++ k)
    (CVal.tok { Value := v, ExpiresAt := now + ttl, SPN := k }) ttl h
  rw [if_neg (by omega)] at hs ht
  refine ⟨?_, ?_, ?_, ?_⟩
  · simp [AppCache.GetToken, AppCache.Set, hs]
  · simp [AppCache.Get, AppCache.Set, hs]
  · simp [AppCache.Get, AppCache.SetToken, ht]
  · simp [AppCache.GetToken, AppCache.SetToken, ht]

/-- Witness for C10 at a concrete store, key and TTL. -/
theorem C10_typed_accessors_witness :
    AppCache.GetToken (AppCache.Set InitCache 1 (PrefixToken ++ "s") "v" 5) 1 "s" = none ∧
    AppCache.Get (AppCache.Set InitCache 1 (PrefixToken ++ "s") "v" 5) 1 (PrefixToken ++ "s")
      = some "v" ∧
    AppCache.Get (AppCache.SetToken InitCache 1 "s" "v" 5) 1 (PrefixToken ++ "s") = none ∧
    AppCache.GetToken (AppCache.SetToken InitCache 1 "s" "v" 5) 1 "s" = some "v" :=
  C10_typed_accessors InitCache "s" "v" 5 1 (by decide)

/-- C8: in the GSS-style backend, for every identity of slash form
prefix ++ "/" ++ suffix (split at the first '/'), the derived at-form passed
to native name import equals prefix ++ "@" ++ suffix; the conversion builds a
fresh value — the original identity is the unchanged function argument, which
is what the backend's diagnostics reference — and the name-import call in the
run's trace receives exactly the at-form. -/
theorem C8_slash_to_at (p s : List Char) (env : GssEnv)
    (hp : '/' ∉ p) (hacq : env.acquireCred = GssMajor.complete) :
    convertSlashToAt (p ++ '/' :: s) = p ++ '@' :: s ∧
    (gss_get_service_ticket env (p ++ '/' :: s)).2.take 2 =
      [GssEvent.acquireCred, GssEvent.importName (p ++ '@' :: s)] := by
  have hconv : convertSlashToAt (p ++ '/' :: s) = p ++ '@' :: s := by
    simp [convertSlashToAt, splitFirst_append '/' p s hp]
  refine ⟨hconv, ?_⟩
  by_cases himp : env.importName (p ++ '@' :: s)
  · simp [gss_get_service_ticket, hacq, himp, hconv]
  · simp [gss_get_service_ticket, hacq, himp, hconv]

def gssEnvAtFormW : GssEnv :=
  { acquireCred := GssMajor.complete
    importName := fun _ => true
    initSecContext := fun _ _ => (GssMajor.complete, [1]) }

/-- Witness for C8 at the identity "HTTP/web01". -/
theorem C8_slash_to_at_witness :
    convertSlashToAt ("HTTP".toList ++ '/' :: "web01".toList) =
      "HTTP".toList ++ '@' :: "web01".toList ∧
    (gss_get_service_ticket gssEnvAtFormW ("HTTP".toList ++ '/' :: "web01".toList)).2.take 2 =
      [GssEvent.acquireCred, GssEvent.importName ("HTTP".toList ++ '@' :: "web01".toList)] :=
  C8_slash_to_at "HTTP".toList "web01".toList gssEnvAtFormW (by decide) rfl

def sspiEnvNoCheckW : SspiEnv := ⟨fun _ => some [7]⟩

def gssEnvOrderW : GssEnv :=
  { acquireCred := GssMajor.complete
    importName := fun _ => true
    initSecContext := fun _ _ => (GssMajor.complete, [9]) }

/-- C4 counterexample: "nohostnoservice" has neither separator, yet the
Windows backend does not reject it — it hands it straight to the native
NewClientContext call and here returns a token — and the GSS-style backend's
first native call on any run is the credential acquisition, made before the
identity is inspected at all; so rejection before any native credential call
does not hold on every backend. -/
theorem C4_counterexample :
    ('/' ∉ "nohostnoservice".toList ∧ '@' ∉ "nohostnoservice".toList) ∧
    GSSCredTransportWindows.GetServiceTicket { debug := false, cred := some () }
      sspiEnvNoCheckW "nohostnoservice".toList =
      (Except.ok [7],
       [SspiEvent.newClientContext "nohostnoservice".toList, SspiEvent.contextRelease]) ∧
    (gss_get_service_ticket gssEnvOrderW "nohostnoservice".toList).2.head? =
      some GssEvent.acquireCred := by
  exact ⟨by decide, rfl, rfl⟩

/-- C4 amended: only the Linux (gokrb5) backend rejects an identity with no
recognized separator before any native or library call (invalid-SPN-format
error, empty call trace); the Windows backend performs no format validation —
its first and only native step is NewClientContext on the unvalidated
identity — and the GSS-style backend always performs the native credential
acquisition before inspecting the identity. -/
theorem C4_amended_reject_before_native (spn : List Char) (d : Bool) (pth : String)
    (envL : GokrbEnv) (envW : SspiEnv) (envG : GssEnv)
    (h1 : '/' ∉ spn) (h2 : '@' ∉ spn) :
    GSSCredTransportLinux.GetServiceTicket
      { debug := d, client := some (), ccachePath := pth } envL spn =
      (Except.error GokrbErr.invalidSPNFormat, []) ∧
    (GSSCredTransportWindows.GetServiceTicket { debug := d, cred := some () } envW spn).2.head?
      = some (SspiEvent.newClientContext spn) ∧
    (gss_get_service_ticket envG spn).2.head? = some GssEvent.acquireCred := by
  have hparse : parseSPN spn = none := by
    simp [parseSPN, splitFirst_eq_none '/' spn h1, splitFirst_eq_none '@' spn h2]
  refine ⟨?_, ?_, ?_⟩
  · simp [GSSCredTransportLinux.GetServiceTicket, hparse]
  · cases henv : envW.newClientContext spn with
    | none => simp [GSSCredTransportWindows.GetServiceTicket, henv]
    | some tok =>
      by_cases ht : tok.isEmpty <;>
        simp [GSSCredTransportWindows.GetServiceTicket, henv, ht]
  · by_cases hacq : envG.acquireCred = GssMajor.complete
    · by_cases himp : envG.importName (convertSlashToAt spn) <;>
        simp [gss_get_service_ticket, hacq, himp]
    · simp [gss_get_service_ticket, hacq]

def gokrbEnvW : GokrbEnv := { acquireCredOk := true, initSecContextOk := true, marshalBytes := some [1] }

/-- Witness for the amended C4 at the identity "nohostnoservice". -/
theorem C4_amended_reject_before_native_witness :
    GSSCredTransportLinux.GetServiceTicket
      { debug := false, client := some (), ccachePath := "" } gokrbEnvW
      "nohostnoservice".toList = (Except.error GokrbErr.invalidSPNFormat, []) ∧
    (GSSCredTransportWindows.GetServiceTicket { debug := false, cred := some () }
      sspiEnvNoCheckW "nohostnoservice".toList).2.head?
      = some (SspiEvent.newClientContext "nohostnoservice".toList) ∧
    (gss_get_service_ticket gssEnvOrderW "nohostnoservice".toList).2.head? =
      some GssEvent.acquireCred :=
  C4_amended_reject_before_native "nohostnoservice".toList false "" gokrbEnvW
    sspiEnvNoCheckW gssEnvOrderW (by decide) (by decide)

theorem getServiceTicket_steps (env : MainEnv) (spn : String) :
    (getServiceTicket env spn).2.filter isWriteLockStep = [] ∧
    (∀ q, AppStep.cacheGetToken q ∉ (getServiceTicket env spn).2) := by
  by_cases hp : env.platformSupported
  · by_cases hc : env.connectOk
    · cases ht : env.ticket spn <;>
        simp [getServiceTicket, hp, hc, ht, isWriteLockStep]
    · simp [getServiceTicket, hp, hc, isWriteLockStep]
  · simp [getServiceTicket, hp]

theorem getServiceTicket_newTransport (env : MainEnv) (spn : String)
    (hp : env.platformSupported = true) :
    AppStep.newTransport ∈ (getServiceTicket env spn).2 := by
  by_cases hc : env.connectOk
  · cases ht : env.ticket spn <;> simp [getServiceTicket, hp, hc, ht]
  · simp [getServiceTicket, hp, hc]

def mainEnvConnFailW : MainEnv :=
  { platformSupported := true, connectOk := false, ticket := fun _ => none }

/-- C6 counterexample: selecting the SPN "HTTP/x" while ticket acquisition
fails (Connect fails) still mutates the session record — currentSPN is
committed by setSPN before and regardless of the refresh outcome — so the
record is not mutated only by a successful refresh. -/
theorem C6_counterexample :
    (getServiceTicket mainEnvConnFailW "HTTP/x").1 = Except.error TicketErr.connectFailed ∧
    (setSPN mainEnvConnFailW 0 "HTTP/x" initialSessionState InitCache).1 ≠
      initialSessionState ∧
    (setSPN mainEnvConnFailW 0 "HTTP/x" initialSessionState InitCache).1.currentSPN =
      "HTTP/x" ∧
    (setSPN mainEnvConnFailW 0 "HTTP/x" initialSessionState InitCache).1.lastToken = "" := by
  exact ⟨rfl, by decide, rfl, rfl⟩

/-- C6 amended: the session record starts empty; refreshToken never writes the
identity field and, when acquisition fails, leaves state and cache exactly as
found, while on success it commits precisely the encoded token and the
timestamp; the identity is committed by setSPN (under the write lock, as its
first step) before acquisition and regardless of the outcome; and the only
write-lock section a refresh ever takes is the single token/timestamp commit —
acquisition itself happens outside any lock section. -/
theorem C6_amended_session_frame (env : MainEnv) (now : Int) (spn : String)
    (s : SessionState) (c : AppCache) :
    initialSessionState = { currentSPN := "", lastToken := "", lastTokenTime := 0 } ∧
    (refreshToken env now s c).1.currentSPN = s.currentSPN ∧
    ((refreshToken env now s c).1 = s ∧ (refreshToken env now s c).2.1 = c ∨
      ∃ tok, (getServiceTicket env s.currentSPN).1 = Except.ok tok ∧
        (refreshToken env now s c).1 =
          { s with lastToken := String.mk (base64Encode tok), lastTokenTime := now }) ∧
    (setSPN env now spn s c).1.currentSPN = spn ∧
    (setSPN env now spn s c).2.2.head? = some AppStep.writeLockSetSPN ∧
    ((refreshToken env now s c).2.2.filter isWriteLockStep = [] ∨
      (refreshToken env now s c).2.2.filter isWriteLockStep = [AppStep.writeLockCommit]) := by
  have hpres : ∀ s' : SessionState,
      (refreshToken env now s' c).1.currentSPN = s'.currentSPN := by
    intro s'
    by_cases h : s'.currentSPN = ""
    · simp [refreshToken, h]
    · cases hr : (getServiceTicket env s'.currentSPN).1 <;> simp [refreshToken, h, hr]
  refine ⟨rfl, hpres s, ?_, ?_, by simp [setSPN], ?_⟩
  · by_cases h : s.currentSPN = ""
    · left; simp [refreshToken, h]
    · cases hr : (getServiceTicket env s.currentSPN).1 with
      | error e => left; simp [refreshToken, h, hr]
      | ok tok => exact Or.inr ⟨tok, rfl, by simp [refreshToken, h, hr]⟩
  · show (refreshToken env now { s with currentSPN := spn } c).1.currentSPN = spn
    rw [hpres { s with currentSPN := spn }]
  · by_cases h : s.currentSPN = ""
    · left; simp [refreshToken, h, isWriteLockStep]
    · cases hr : (getServiceTicket env s.currentSPN).1 with
      | error e =>
        left
        simp [refreshToken, h, hr, isWriteLockStep,
          (getServiceTicket_steps env s.currentSPN).1]
      | ok tok =>
        right
        simp [refreshToken, h, hr, isWriteLockStep, List.filter_append,
          (getServiceTicket_steps env s.currentSPN).1]

def mainEnvOkW : MainEnv :=
  { platformSupported := true, connectOk := true, ticket := fun _ => some [1, 2, 3] }

def cacheWithTokenW : AppCache :=
  AppCache.SetToken InitCache 1 "HTTP/x" "CACHED" DefaultTokenExpiration

def sessionWithSPNW : SessionState :=
  { currentSPN := "HTTP/x", lastToken := "", lastTokenTime := 0 }

/-- C7 counterexample: with an unexpired token for "HTTP/x" sitting in the
Token Cache, the refresh path still performs the full transport sequence — its
step trace is exactly the transport construction, Connect, ticket request and
Close (plus the lock commits), with no cache consultation step anywhere — and
the committed token is the freshly acquired one, not the cached value; so not
every ticket request consults the cache first or returns an unexpired cached
token without constructing a transport. -/
theorem C7_counterexample :
    AppCache.GetToken cacheWithTokenW 1 "HTTP/x" = some "CACHED" ∧
    (refreshToken mainEnvOkW 1 sessionWithSPNW cacheWithTokenW).2.2 =
      [AppStep.readLockSPN, AppStep.newTransport, AppStep.transportConnect,
       AppStep.transportGetTicket "HTTP/x", AppStep.transportClose,
       AppStep.writeLockCommit, AppStep.cacheSetToken "HTTP/x"] ∧
    (refreshToken mainEnvOkW 1 sessionWithSPNW cacheWithTokenW).1.lastToken ≠ "CACHED" := by
  exact ⟨by decide, rfl, by decide⟩

/-- C7 amended: only the scripted request path consults the Token Cache first:
luaGetToken's first step is the cache lookup, a hit is returned as-is with no
further step (in particular no transport is constructed), and on a miss a
transport is constructed (whenever the platform is supported); the refresh
path (refreshToken), by contrast, never consults the Token Cache at all. -/
theorem C7_amended_cache_first (env : MainEnv) (now : Int) (cache : AppCache)
    (spn : String) (s : SessionState) (c : AppCache) :
    (∀ v, AppCache.GetToken cache now spn = some v →
      luaGetToken env now cache spn = (Except.ok v, cache, [AppStep.cacheGetToken spn])) ∧
    (AppCache.GetToken cache now spn = none → env.platformSupported = true →
      AppStep.newTransport ∈ (luaGetToken env now cache spn).2.2) ∧
    (luaGetToken env now cache spn).2.2.head? = some (AppStep.cacheGetToken spn) ∧
    (∀ q, AppStep.cacheGetToken q ∉ (refreshToken env now s c).2.2) := by
  refine ⟨?_, ?_, ?_, ?_⟩
  · intro v hv
    simp [luaGetToken, hv]
  · intro hn hp
    have hmem := getServiceTicket_newTransport env spn hp
    cases hr : (getServiceTicket env spn).1 with
    | error e =>
      simp only [luaGetToken, hn, hr]
      exact List.mem_cons_of_mem _ hmem
    | ok tok =>
      simp only [luaGetToken, hn, hr]
      exact List.mem_cons_of_mem _ (List.mem_append_left _ hmem)
  · cases hg : AppCache.GetToken cache now spn with
    | some v => simp [luaGetToken, hg]
    | none => cases hr : (getServiceTicket env spn).1 <;> simp [luaGetToken, hg, hr]
  · intro q
    by_cases h : s.currentSPN = ""
    · simp [refreshToken, h]
    · cases hr : (getServiceTicket env s.currentSPN).1 with
      | error e =>
        simp [refreshToken, h, hr, (getServiceTicket_steps env s.currentSPN).2 q]
      | ok tok =>
        simp [refreshToken, h, hr, (getServiceTicket_steps env s.currentSPN).2 q]

def cacheHitW : AppCache := AppCache.SetToken InitCache 1 "HTTP/y" "TOK" 5

/-- Witness for the amended C7: a cached-token hit is returned directly with
the cache lookup as the only step. -/
theorem C7_amended_cache_first_witness :
    luaGetToken mainEnvOkW 1 cacheHitW "HTTP/y" =
      (Except.ok "TOK", cacheHitW, [AppStep.cacheGetToken "HTTP/y"]) := by
  exact (C7_amended_cache_first mainEnvOkW 1 cacheHitW "HTTP/y" initialSessionState
    InitCache).1 "TOK" (by decide)
